import Mathlib

/-!
Shallow embedding of the MAP price monitoring system (`src/main.py`).

The embedded pieces are the pure/observable cores of:
* `NaverCrawler.extract_price` (line 181),
* the per-listing body of `NaverCrawler.crawl_product` (lines 188-254),
* the scan loop of `main` (lines 567-588) together with its event trace
  (page request / randomized sleep ordering),
* `send_notifications` (lines 257-283).

Modelling conventions:
* Python strings are Lean `String`s; Python's `x in s` substring test is
  `x.data <:+: s.data` (contiguous sublist of characters).
* Python's `re.sub(r'[^\d]', '', t)` keeps the decimal digits of `t`;
  it is modelled with `Char.isDigit` (the inputs of this program contain
  no non-ASCII decimal digits).
* `violation_rate` is a Python float produced by `round(x, 1)`, hence an
  exact multiple of one tenth up to float representation; it is modelled
  exactly by its value in tenths (an integer), with `pyRound1` giving the
  corresponding rational value.  Python's `round` rounds ties to even;
  float representation error is not modelled.
* Selenium element lookups that may raise (`title`, `mall`, `price`,
  `link`) are `Option`-valued fields of `Item`; a raised lookup is `none`.
* The outer `try`/`except` of `crawl_product` (a failed page fetch) is an
  `Except` argument: on `error` the function returns the violations
  accumulated so far, which is the empty list.
* `requests.post` and `time.sleep` are effects; delivery outcomes are a
  `String → Bool` oracle (ignored by the code, which swallows delivery
  errors), and sleeps are recorded in an event trace.
-/

/-- Round a rational to the nearest integer, ties to even
(the rounding used by Python's builtin `round`). -/
def roundHalfEvenQ (q : ℚ) : ℤ :=
  if q - ⌊q⌋ < 1/2 then ⌊q⌋
  else if 1/2 < q - ⌊q⌋ then ⌊q⌋ + 1
  else if ⌊q⌋ % 2 = 0 then ⌊q⌋ else ⌊q⌋ + 1

/-- Python's `round(q, 1)` on an exact rational. -/
def pyRound1 (q : ℚ) : ℚ :=
  (roundHalfEvenQ (q * 10) : ℚ) / 10

/-- Round `a / b` (with `0 < b`) to the nearest integer, ties to even,
in pure integer arithmetic.  `a / b` and `a % b` are Euclidean
quotient/remainder, so `f` is the floor of the exact quotient. -/
def roundTiesEvenInt (a b : ℤ) : ℤ :=
  if 2 * (a - a / b * b) < b then a / b
  else if b < 2 * (a - a / b * b) then a / b + 1
  else if a / b % 2 = 0 then a / b else a / b + 1

/-- The stored violation rate of `crawl_product` in tenths of a percent:
the exact value of `round(((map_price - price) / map_price) * 100, 1)`
(line 232 and 241 of `src/main.py`) scaled by 10. -/
def rate_tenths (map_price price : ℕ) : ℤ :=
  roundTiesEvenInt (1000 * ((map_price : ℤ) - price)) map_price

/-- `Product` dataclass (line 52). -/
structure Product where
  brand : String
  name : String
  map_price : ℕ
  search_keyword : String
deriving DecidableEq

/-- `Violation` dataclass (line 59); `violation_rate` is stored in tenths. -/
structure Violation where
  brand : String
  product_name : String
  map_price : ℕ
  vendor_name : String
  violation_price : ℕ
  violation_url : String
  violation_rate_tenths : ℤ
  discovered_at : String
  status : String
deriving DecidableEq

/-- Decimal value of a list of digit characters, as Python's `int` parses it. -/
def digitsVal (cs : List Char) : ℕ :=
  cs.foldl (fun n c => n * 10 + (c.toNat - 48)) 0

/-- `NaverCrawler.extract_price` (line 181): strip non-digit characters;
`int` of the remainder, or `None` when nothing remains.  The Python
`try`/`except` can never fire on the digit-only remainder, so the model
is total. -/
def extract_price (price_text : String) : Option ℕ :=
  let ds := price_text.data.filter Char.isDigit
  if ds.isEmpty then none else some (digitsVal ds)

/-- One result card of the search page, as seen by `crawl_product`.
A `none` field is a Selenium lookup that raised. -/
structure Item where
  title : Option String
  vendor : Option String
  price_text : Option String
  url : Option String
deriving DecidableEq

/-- The loop body of `NaverCrawler.crawl_product` (lines 203-248) for a
single item: `None` is `continue`/no violation, `some v` is
`violations.append(v)`.  Mirrors, in order: the title lookup and brand
substring test (lines 206-208), the vendor lookup with fallback
(lines 211-214), the price lookup and extraction (lines 217-221), the url
lookup with fallback (lines 224-228), and the violation check
`if price and price < product.map_price` (line 231), under which a zero
extracted price is falsy and emits nothing. -/
def crawl_item (product : Product) (now : String) (item : Item) : Option Violation :=
  match item.title with
  | none => none
  | some title =>
    if product.brand.data <:+: title.data then
      match item.price_text with
      | none => none
      | some pt =>
        match extract_price pt with
        | none => none
        | some price =>
          if 0 < price ∧ price < product.map_price then
            some
              { brand := product.brand
              , product_name := product.name
              , map_price := product.map_price
              , vendor_name := item.vendor.getD "알 수 없음"
              , violation_price := price
              , violation_url := item.url.getD ""
              , violation_rate_tenths := rate_tenths product.map_price price
              , discovered_at := now
              , status := "신규" }
          else none
    else none

/-- `NaverCrawler.crawl_product` (lines 188-254): on a fetch error the
outer `except` returns the (empty) accumulated list; otherwise the first
10 items (`items[:10]`, line 203) are processed in order. -/
def crawl_product (product : Product) (now : String)
    (fetched : Except String (List Item)) : List Violation :=
  match fetched with
  | .error _ => []
  | .ok items => (items.take 10).filterMap (crawl_item product now)

/-- The per-scan history entry appended by `main` (lines 585-588):
`{'time': ..., 'violations': len(all_violations)}`. -/
structure ScanEntry where
  time : String
  violations : ℕ
deriving DecidableEq

/-- The scan loop of `main` (lines 567-588): crawl every configured
product in order, concatenate the violations, and append one scan-history
entry. -/
def run_scan (products : List Product) (now : String)
    (fetch : Product → Except String (List Item)) : List Violation × ScanEntry :=
  let all := products.flatMap fun p => crawl_product p now (fetch p)
  (all, { time := now, violations := all.length })

/-- Externally visible timing events of a scan. -/
inductive Event where
  | request : String → Event
  | sleep : ℕ → ℕ → Event

deriving instance DecidableEq for Event

/-- The search URL built at line 192. -/
def search_url (product : Product) : String :=
  "https://search.shopping.naver.com/search/all?query=" ++ product.search_keyword

/-- Timing trace of `crawl_product` (lines 197-198): the page request is
issued first, then `time.sleep(random.uniform(3, 5))`. -/
def crawl_events (product : Product) : List Event :=
  [Event.request (search_url product), Event.sleep 3 5]

/-- Timing trace of the scan loop of `main` (lines 574-578): each
product's crawl is followed by `time.sleep(random.uniform(delay_min,
delay_max))`. -/
def scan_events (products : List Product) (delay_min delay_max : ℕ) : List Event :=
  products.flatMap fun p => crawl_events p ++ [Event.sleep delay_min delay_max]

/-- The two webhook URLs read by `main` (lines 396-406) and passed to
`send_notifications` in `config` (lines 596-599). -/
structure NotifyConfig where
  slack_webhook : Option String
  n8n_webhook : Option String
deriving DecidableEq

/-- One entry of the `fields` array of the Slack payload (lines 270-277). -/
structure SlackField where
  title : String
  value : String
  short : Bool
deriving DecidableEq

/-- The Slack digest message (lines 265-280). -/
structure SlackMessage where
  text : String
  color : String
  fields : List SlackField
deriving DecidableEq

/-- Thousands grouping of Python's `f"{n:,}"`, over the reversed digit
string (`k` counts digits already emitted). -/
def commaRev : List Char → ℕ → List Char
  | [], _ => []
  | c :: cs, k =>
    if 0 < k ∧ k % 3 = 0 then ',' :: c :: commaRev cs (k + 1)
    else c :: commaRev cs (k + 1)

/-- Python's `f"{n:,}"` for a natural number. -/
def comma_fmt (n : ℕ) : String :=
  String.mk ((commaRev (Nat.repr n).data.reverse 0).reverse)

/-- Python's `str` of a nonnegative one-decimal float given in tenths. -/
def rate_repr (t : ℤ) : String :=
  toString (t / 10) ++ "." ++ toString (t % 10)

/-- One violation's field of the Slack digest (lines 271-275). -/
def slack_field (v : Violation) : SlackField :=
  { title := v.product_name
  , value := "업체: " ++ v.vendor_name ++ "\n가격: " ++ comma_fmt v.violation_price
      ++ "원 (MAP: " ++ comma_fmt v.map_price ++ "원)\n위반율: "
      ++ rate_repr v.violation_rate_tenths ++ "%"
  , short := false }

/-- The digest built at lines 265-280: header text with the total count,
one `danger` attachment holding the first 5 violations. -/
def build_message (violations : List Violation) : SlackMessage :=
  { text := "⚠️ MAP 위반 감지: " ++ toString violations.length ++ "건"
  , color := "danger"
  , fields := (violations.take 5).map slack_field }

/-- `send_notifications` (lines 257-283), returning the list of webhook
posts it attempts.  It returns immediately on an empty violation list
(line 259); it posts one digest to the Slack webhook when configured
(lines 263-281); the `n8n_webhook` entry of `config` is read by `main`
but never used here; the `requests.post` outcome `post_ok` is wrapped in
`try`/`except: pass` (lines 264, 282-283), so it influences nothing. -/
def send_notifications (violations : List Violation) (config : NotifyConfig)
    (post_ok : String → Bool) : List (String × SlackMessage) :=
  if violations.isEmpty then []
  else
    match config.slack_webhook with
    | some url => [(url, build_message violations)]
    | none => []

/-! Concrete sample data, used by counterexamples and witnesses. -/

/-- The first default product of `main` (line 361). -/
def pX : Product := ⟨"고래미", "고래미 타코와사비", 18000, "고래미 타코와사비"⟩

/-- A listing of vendor V at 15,000원 whose title contains the brand. -/
def itemV1 : Item := ⟨some "고래미 타코와사비 300g", some "V", some "15,000원", some "http://a"⟩

/-- A second listing of the same vendor V at 16,000원. -/
def itemV2 : Item := ⟨some "고래미 타코와사비 500g", some "V", some "16,000원", some "http://b"⟩

/-- A listing advertising the product at 0원. -/
def itemZero : Item := ⟨some "고래미 타코와사비 행사", some "V", some "0원", some "http://c"⟩

/-- A product with MAP 10,000원. -/
def p9999 : Product := ⟨"브랜드", "브랜드 제품", 10000, "브랜드 제품"⟩

/-- A listing 1원 below a MAP of 10,000원: shortfall 0.01%. -/
def item9999 : Item := ⟨some "브랜드 제품", some "W", some "9,999원", some "http://d"⟩

/-- The violation `crawl_product pX "t" (.ok [itemV1])` emits. -/
def vV1 : Violation :=
  ⟨"고래미", "고래미 타코와사비", 18000, "V", 15000, "http://a", 167, "t", "신규"⟩

/-- A webhook configuration with both sinks configured. -/
def cfg0 : NotifyConfig := ⟨some "https://hooks.slack.com/x", some "https://n8n.example/hook"⟩

/-! Helper lemmas. -/

/-- Characterization of a successful `crawl_item`: the title was found and
contains the brand, a price text was found, its extracted price is nonzero
and below the MAP, and the emitted violation is the record of line 234. -/
theorem crawl_item_eq_some {p : Product} {now : String} {item : Item} {v : Violation}
    (h : crawl_item p now item = some v) :
    ∃ title, item.title = some title ∧ p.brand.data <:+: title.data ∧
      ∃ pt, item.price_text = some pt ∧
        ∃ price, extract_price pt = some price ∧ 0 < price ∧ price < p.map_price ∧
          v = { brand := p.brand
              , product_name := p.name
              , map_price := p.map_price
              , vendor_name := item.vendor.getD "알 수 없음"
              , violation_price := price
              , violation_url := item.url.getD ""
              , violation_rate_tenths := rate_tenths p.map_price price
              , discovered_at := now
              , status := "신규" } := by
  unfold crawl_item at h
  split at h
  · exact absurd h (by simp)
  next title htitle =>
    split at h
    next hinf =>
      split at h
      · exact absurd h (by simp)
      next pt hpt =>
        split at h
        · exact absurd h (by simp)
        next price hprice =>
          split at h
          next hcond =>
            exact ⟨title, htitle, hinf, pt, hpt, price, hprice, hcond.1, hcond.2,
              (Option.some_inj.mp h).symm⟩
          · exact absurd h (by simp)
    · exact absurd h (by simp)

/-! Claim C4. -/

/-- C4: the price extractor is total: it returns the integer formed by the
digits remaining after stripping all non-digit characters, and the
"no price" outcome exactly when the text contains no digit; in particular
`extract_price "19,800원" = 19800` and `extract_price "문의"` is `none`. -/
theorem C4_extract_price :
    extract_price "19,800원" = some 19800 ∧
    extract_price "문의" = none ∧
    (∀ s, extract_price s = none ↔ ∀ c ∈ s.data, c.isDigit = false) ∧
    (∀ s, extract_price s = none ∨
      extract_price s = some (digitsVal (s.data.filter Char.isDigit))) := by
  refine ⟨by decide, by decide, ?_, ?_⟩
  · intro s
    unfold extract_price
    constructor
    · intro h
      by_cases he : (s.data.filter Char.isDigit).isEmpty
      · intro c hc
        by_contra hd
        have : c ∈ s.data.filter Char.isDigit :=
          List.mem_filter.mpr ⟨hc, by simpa using hd⟩
        rw [List.isEmpty_iff] at he
        simp [he] at this
      · simp [he] at h
    · intro h
      have : s.data.filter Char.isDigit = [] :=
        List.filter_eq_nil_iff.mpr (fun c hc => by simp [h c hc])
      simp [this]
  · intro s
    unfold extract_price
    by_cases he : (s.data.filter Char.isDigit).isEmpty <;> simp [he]

/-- C4 witness: the characterization applied to a concrete digit-free text. -/
theorem C4_extract_price_witness : extract_price "가격문의" = none :=
  (C4_extract_price.2.2.1 "가격문의").mpr (by decide)

/-! Claim C10. -/

/-- C10: a listing whose extracted price is exactly 0 (for example price
text "0원" or "000") is skipped like an absent price: `price and ...` is
falsy at 0, so no violation is emitted even though 0 is below every
positive MAP. -/
theorem C10_zero_price_skipped :
    extract_price "0원" = some 0 ∧
    extract_price "000" = some 0 ∧
    ∀ p now item pt, item.price_text = some pt → extract_price pt = some 0 →
      crawl_item p now item = none := by
  refine ⟨by decide, by decide, ?_⟩
  intro p now item pt hpt h0
  unfold crawl_item
  split
  · rfl
  next title _ =>
    split
    · simp [hpt, h0]
    · rfl

/-- C10 witness: the 0원 listing for the MAP-18000 product emits nothing. -/
theorem C10_zero_price_skipped_witness : crawl_item pX "t" itemZero = none :=
  C10_zero_price_skipped.2.2 pX "t" itemZero "0원" rfl (by decide)

/-! Claim C3. -/

/-- C3 is false as stated: for the listing `itemZero` (brand-matching
title, price text "0원") the extracted price exists (0) and is strictly
below the MAP 18000, yet `crawl_item` emits no violation. -/
theorem C3_counterexample :
    itemZero.price_text = some "0원" ∧ extract_price "0원" = some 0 ∧
    (0 : ℕ) < pX.map_price ∧ crawl_item pX "t" itemZero = none := by decide

/-- C3 amended: for a listing that reaches the price check (title found and
containing the brand, price text found), a violation is emitted exactly
when the extracted price exists, is nonzero and is below the MAP, and the
emitted violation has status `신규` (New) and `discovered_at` equal to the
detection instant. -/
theorem C3_listing_behavior :
    ∀ p now item title pt, item.title = some title →
      p.brand.data <:+: title.data → item.price_text = some pt →
      (extract_price pt = none → crawl_item p now item = none) ∧
      (∀ n, extract_price pt = some n → p.map_price ≤ n →
        crawl_item p now item = none) ∧
      (extract_price pt = some 0 → crawl_item p now item = none) ∧
      (∀ n, extract_price pt = some n → 0 < n → n < p.map_price →
        ∃ v, crawl_item p now item = some v ∧ v.status = "신규" ∧
          v.discovered_at = now ∧ v.violation_price = n ∧
          v.vendor_name = item.vendor.getD "알 수 없음") := by
  intro p now item title pt htitle hinf hpt
  refine ⟨?_, ?_, ?_, ?_⟩
  · intro hnone
    unfold crawl_item
    rw [htitle]
    simp only [hinf, if_true, hpt, hnone]
  · intro n hn hge
    unfold crawl_item
    rw [htitle]
    simp only [hinf, if_true, hpt, hn]
    rw [if_neg]
    intro hcond
    exact absurd hcond.2 (not_lt.mpr hge)
  · intro h0
    unfold crawl_item
    rw [htitle]
    simp only [hinf, if_true, hpt, h0]
    simp
  · intro n hn hpos hlt
    have hcall : crawl_item p now item
        = some { brand := p.brand
               , product_name := p.name
               , map_price := p.map_price
               , vendor_name := item.vendor.getD "알 수 없음"
               , violation_price := n
               , violation_url := item.url.getD ""
               , violation_rate_tenths := rate_tenths p.map_price n
               , discovered_at := now
               , status := "신규" } := by
      unfold crawl_item
      rw [htitle]
      simp only [hinf, if_true, hpt, hn]
      rw [if_pos ⟨hpos, hlt⟩]
    exact ⟨_, hcall, rfl, rfl, rfl, rfl⟩

/-- C3 witness: the amended behavior at the 15,000원 listing. -/
theorem C3_listing_behavior_witness :
    ∃ v, crawl_item pX "t" itemV1 = some v ∧ v.status = "신규" ∧
      v.discovered_at = "t" ∧ v.violation_price = 15000 ∧
      v.vendor_name = itemV1.vendor.getD "알 수 없음" :=
  (C3_listing_behavior pX "t" itemV1 "고래미 타코와사비 300g" "15,000원"
    rfl (by decide) rfl).2.2.2 15000 (by decide) (by decide) (by decide)

/-! Claim C1. -/

/-- C1 is false on the code: the two listings of vendor V at 15,000원 and
16,000원 against MAP 18000 produce two violations for the same
`(vendor_name, product_name)` pair, not at most one. -/
theorem C1_counterexample :
    ¬ (((crawl_product pX "t" (.ok [itemV1, itemV2])).filter
        fun v => v.vendor_name == "V" && v.product_name == "고래미 타코와사비").length ≤ 1) := by
  decide

/-- C1 amended: `crawl_product` performs no per-(vendor, product)
deduplication: it emits one violation per violating listing, so the two
listings of vendor V at 15,000원 and 16,000원 against MAP 18000 yield two
violations for V, at 15,000원 and at 16,000원, in listing order. -/
theorem C1_no_dedup :
    ((crawl_product pX "t" (.ok [itemV1, itemV2])).map
      fun v => (v.vendor_name, v.violation_price)) = [("V", 15000), ("V", 16000)] := by
  decide

/-! Claim C5. -/

/-- C5: the crawl considers only the first 10 candidate listings of the
results page, and every listing that reaches the violation check — in
particular every listing a violation comes from — has a title containing
the product's brand as a case-sensitive substring. -/
theorem C5_bound_and_brand_filter :
    ∀ p now items,
      crawl_product p now (.ok items) = crawl_product p now (.ok (items.take 10)) ∧
      ∀ v ∈ crawl_product p now (.ok items),
        ∃ item ∈ items.take 10, ∃ title, item.title = some title ∧
          p.brand.data <:+: title.data ∧ crawl_item p now item = some v := by
  intro p now items
  constructor
  · simp [crawl_product, List.take_take]
  · intro v hv
    simp only [crawl_product] at hv
    obtain ⟨item, hmem, hsome⟩ := List.mem_filterMap.mp hv
    obtain ⟨title, ht, hinf, -⟩ := crawl_item_eq_some hsome
    exact ⟨item, hmem, title, ht, hinf, hsome⟩

/-- C5 witness: provenance of the violation of the 15,000원 listing. -/
theorem C5_bound_and_brand_filter_witness :
    ∃ item ∈ [itemV1].take 10, ∃ title, item.title = some title ∧
      pX.brand.data <:+: title.data ∧ crawl_item pX "t" item = some vV1 :=
  (C5_bound_and_brand_filter pX "t" [itemV1]).2 vV1 (by decide)

/-! Claim C8. -/

/-- C8: fetch isolation: when product A's fetch fails and product B's
succeeds in the same scan, the scan completes, yields exactly B's
violations (A contributes none), and records one scan-history entry whose
violation count covers the whole two-product scan. -/
theorem C8_fetch_isolation :
    ∀ pA pB now e items (fetch : Product → Except String (List Item)),
      fetch pA = .error e → fetch pB = .ok items →
      run_scan [pA, pB] now fetch
        = (crawl_product pB now (.ok items),
           { time := now, violations := (crawl_product pB now (.ok items)).length }) ∧
      crawl_product pA now (fetch pA) = [] := by
  intro pA pB now e items fetch hA hB
  constructor
  · simp [run_scan, hA, hB, crawl_product]
  · rw [hA]
    rfl

/-- C8 witness: a concrete two-product scan in which the first product's
fetch fails and the second succeeds. -/
theorem C8_fetch_isolation_witness :
    run_scan [p9999, pX] "t"
        (fun p => if p.name = "브랜드 제품" then .error "timeout" else .ok [itemV1, itemV2])
      = (crawl_product pX "t" (.ok [itemV1, itemV2]),
         { time := "t"
         , violations := (crawl_product pX "t" (.ok [itemV1, itemV2])).length }) ∧
    crawl_product p9999 "t"
        ((fun p => if p.name = "브랜드 제품" then .error "timeout" else .ok [itemV1, itemV2]) p9999)
      = [] :=
  C8_fetch_isolation p9999 pX "t" "timeout" [itemV1, itemV2] _ rfl rfl

/-! Rounding bridge: the integer-level rounding stored by the model equals
Python's round-half-to-even of the exact rational rate. -/

/-- Integer ties-to-even rounding of `a / b` agrees with the
floor-and-fraction formulation on exact rationals. -/
theorem roundTiesEvenInt_eq_roundHalfEvenQ (a : ℤ) (b : ℕ) (hb : 0 < b) :
    roundTiesEvenInt a b = roundHalfEvenQ ((a : ℚ) / (b : ℚ)) := by
  have hbQ : (0:ℚ) < (b:ℚ) := by exact_mod_cast hb
  have hbne : (b:ℚ) ≠ 0 := ne_of_gt hbQ
  have hfl : ⌊(a:ℚ)/(b:ℚ)⌋ = a / (b:ℤ) := Rat.floor_intCast_div_natCast a b
  have hfrac : (a:ℚ)/(b:ℚ) - ((a / (b:ℤ) : ℤ) : ℚ)
      = ((a - a / (b:ℤ) * (b:ℤ) : ℤ) : ℚ) / (b:ℚ) := by
    push_cast
    field_simp
    ring
  have h1 : ((a - a / (b:ℤ) * (b:ℤ) : ℤ) : ℚ) / (b:ℚ) < 1/2
      ↔ 2 * (a - a / (b:ℤ) * (b:ℤ)) < (b:ℤ) := by
    rw [div_lt_div_iff hbQ (by norm_num : (0:ℚ) < 2),
      ← Int.cast_lt (R := ℚ)]
    push_cast
    constructor <;> intro h <;> linarith
  have h2 : (1:ℚ)/2 < ((a - a / (b:ℤ) * (b:ℤ) : ℤ) : ℚ) / (b:ℚ)
      ↔ (b:ℤ) < 2 * (a - a / (b:ℤ) * (b:ℤ)) := by
    rw [div_lt_div_iff (by norm_num : (0:ℚ) < 2) hbQ,
      ← Int.cast_lt (R := ℚ)]
    push_cast
    constructor <;> intro h <;> linarith
  unfold roundHalfEvenQ roundTiesEvenInt
  rw [hfl, hfrac]
  simp only [h1, h2]

/-- The stored rate in tenths is exactly Python's
`round(((map_price - price) / map_price) * 100, 1)` scaled by 10. -/
theorem rate_tenths_eq_pyRound1 (m p : ℕ) (hm : 0 < m) :
    ((rate_tenths m p : ℤ) : ℚ) / 10 = pyRound1 (((m:ℚ) - (p:ℚ)) / (m:ℚ) * 100) := by
  have hmne : (m:ℚ) ≠ 0 := Nat.cast_ne_zero.mpr hm.ne'
  unfold pyRound1 rate_tenths
  rw [roundTiesEvenInt_eq_roundHalfEvenQ _ _ hm]
  have harg : ((1000 * ((m:ℤ) - (p:ℤ)) : ℤ) : ℚ) / ((m:ℕ) : ℚ)
      = ((m:ℚ) - (p:ℚ)) / (m:ℚ) * 100 * 10 := by
    push_cast
    field_simp
    ring
  rw [harg]

/-- The stored rate is nonnegative whenever the price is at most the MAP. -/
theorem rate_tenths_nonneg (m p : ℕ) (hpm : p ≤ m) : 0 ≤ rate_tenths m p := by
  unfold rate_tenths roundTiesEvenInt
  have ha : (0:ℤ) ≤ 1000 * ((m:ℤ) - p) := by
    have : (p:ℤ) ≤ (m:ℤ) := by exact_mod_cast hpm
    omega
  have hf : (0:ℤ) ≤ 1000 * ((m:ℤ) - p) / (m:ℤ) :=
    Int.ediv_nonneg ha (Int.natCast_nonneg m)
  split_ifs <;> omega

/-! Claim C2. -/

/-- C2 amended: every violation the detector emits satisfies
`violation_price < map_price`, its stored rate is exactly
`round((map_price - violation_price) / map_price * 100, 1)`, and the rate
is nonnegative (it is not always strictly positive). -/
theorem C2_violation_invariant :
    ∀ p now fetched v, v ∈ crawl_product p now fetched →
      v.violation_price < v.map_price ∧
      (v.violation_rate_tenths : ℚ) / 10
        = pyRound1 (((v.map_price : ℚ) - (v.violation_price : ℚ))
            / (v.map_price : ℚ) * 100) ∧
      0 ≤ v.violation_rate_tenths := by
  intro p now fetched v hv
  cases fetched with
  | error e => simp [crawl_product] at hv
  | ok items =>
    simp only [crawl_product] at hv
    obtain ⟨item, hitem, hsome⟩ := List.mem_filterMap.mp hv
    obtain ⟨title, ht, hinf, pt, hpt, price, hep, hpos, hlt, rfl⟩ :=
      crawl_item_eq_some hsome
    refine ⟨hlt, ?_, ?_⟩
    · exact rate_tenths_eq_pyRound1 _ _ (Nat.lt_of_lt_of_le hpos (Nat.le_of_lt hlt))
    · exact rate_tenths_nonneg _ _ (Nat.le_of_lt hlt)

/-- C2 is false as stated: the listing at 9,999원 against MAP 10,000원 has
exact rate 0.01%, which `round(, 1)` takes to 0.0, so the stored rate of
the emitted violation is not strictly positive. -/
theorem C2_counterexample :
    ((crawl_product p9999 "t" (.ok [item9999])).map
      fun v => v.violation_rate_tenths) = [0] ∧
    ¬ ∀ v ∈ crawl_product p9999 "t" (.ok [item9999]),
        0 < v.violation_rate_tenths := by
  constructor
  · decide
  · decide

/-- C2 witness: the invariant at the violation of the 15,000원 listing. -/
theorem C2_violation_invariant_witness :
    vV1.violation_price < vV1.map_price ∧
    (vV1.violation_rate_tenths : ℚ) / 10
      = pyRound1 (((vV1.map_price : ℚ) - (vV1.violation_price : ℚ))
          / (vV1.map_price : ℚ) * 100) ∧
    0 ≤ vV1.violation_rate_tenths :=
  C2_violation_invariant pX "t" (.ok [itemV1]) vV1 (by decide)

/-! Claim C7. -/

/-- C7 is false as stated: with both the Slack and the n8n webhook
configured and one violation, even with every delivery failing, exactly
one digest post is attempted — to the Slack URL — and none to the n8n
URL, so there is no "one digest message per configured sink". -/
theorem C7_counterexample :
    (send_notifications [vV1] cfg0 fun _ => false).map Prod.fst
      = ["https://hooks.slack.com/x"] ∧
    "https://n8n.example/hook" ∉
      (send_notifications [vV1] cfg0 fun _ => false).map Prod.fst := by
  constructor
  · decide
  · decide

/-- C7 amended: the notifier is a no-op on an empty violation list; its
behavior is independent of delivery outcomes (a failed post is swallowed
and never propagated); every attempted post goes to the configured Slack
webhook and carries the digest with the first 5 violations and the total
count; the configured n8n webhook never receives a post. -/
theorem C7_notifier_behavior :
    ∀ vs cfg pok,
      (vs = [] → send_notifications vs cfg pok = []) ∧
      (∀ pok', send_notifications vs cfg pok = send_notifications vs cfg pok') ∧
      (∀ url m, (url, m) ∈ send_notifications vs cfg pok →
        cfg.slack_webhook = some url ∧ m = build_message vs ∧
        m.fields = (vs.take 5).map slack_field ∧ m.fields.length ≤ 5 ∧
        m.text = "⚠️ MAP 위반 감지: " ++ toString vs.length ++ "건") ∧
      (∀ url, cfg.n8n_webhook = some url → cfg.slack_webhook ≠ some url →
        url ∉ (send_notifications vs cfg pok).map Prod.fst) := by
  intro vs cfg pok
  refine ⟨?_, ?_, ?_, ?_⟩
  · intro h
    simp [send_notifications, h]
  · intro pok'
    rfl
  · intro url m hm
    unfold send_notifications at hm
    by_cases he : vs.isEmpty
    · simp [he] at hm
    · rw [if_neg he] at hm
      cases hs : cfg.slack_webhook with
      | none => rw [hs] at hm; simp at hm
      | some u =>
        rw [hs] at hm
        simp only [List.mem_singleton, Prod.mk.injEq] at hm
        obtain ⟨rfl, rfl⟩ := hm
        refine ⟨rfl, rfl, rfl, ?_, rfl⟩
        simp only [build_message, List.length_map]
        exact le_trans (List.length_take_le 5 vs) (le_refl 5)
  · intro url hn hne hmem
    unfold send_notifications at hmem
    by_cases he : vs.isEmpty
    · simp [he] at hmem
    · rw [if_neg he] at hmem
      cases hs : cfg.slack_webhook with
      | none => rw [hs] at hmem; simp at hmem
      | some u =>
        rw [hs] at hmem
        simp at hmem
        exact hne (hmem ▸ hs)

/-- C7 witness: the amended behavior at the concrete configuration. -/
theorem C7_notifier_behavior_witness :
    cfg0.slack_webhook = some "https://hooks.slack.com/x" ∧
    build_message [vV1] = build_message [vV1] ∧
    (build_message [vV1]).fields = ([vV1].take 5).map slack_field ∧
    (build_message [vV1]).fields.length ≤ 5 ∧
    (build_message [vV1]).text = "⚠️ MAP 위반 감지: " ++ toString [vV1].length ++ "건" :=
  (C7_notifier_behavior [vV1] cfg0 (fun _ => true)).2.2.1
    "https://hooks.slack.com/x" (build_message [vV1]) (by decide)

/-! Claim C9. -/

/-- C9 is false as stated: the very first event of a nonempty scan's
timing trace is the page request itself — `time.sleep` only runs after
`driver.get` — so no in-window delay precedes the first request. -/
theorem C9_counterexample :
    (scan_events [pX] 3 7)[0]? = some (Event.request (search_url pX)) ∧
    ¬ (∀ (i : ℕ) (url : String),
        (scan_events [pX] 3 7)[i]? = some (Event.request url) →
        ∃ j : ℕ, j < i ∧ ∃ lo hi : ℕ,
          (scan_events [pX] 3 7)[j]? = some (Event.sleep lo hi)) := by
  constructor
  · decide
  · intro h
    obtain ⟨j, hj, -⟩ := h 0 (search_url pX) (by decide)
    exact absurd hj (Nat.not_lt_zero j)

/-- Requests sit at the head of each product's three-event block, so any
event at a positive index that is a request forces the trace to start
with the block `request, sleep 3 5, sleep dmin dmax`. -/
theorem scan_events_request_pos (products : List Product) (dmin dmax : ℕ) :
    ∀ i url, (scan_events products dmin dmax)[i]? = some (Event.request url) →
      0 < i →
      (scan_events products dmin dmax)[1]? = some (Event.sleep 3 5) ∧ 1 < i := by
  induction products with
  | nil =>
    intro i url hi _
    simp [scan_events] at hi
  | cons p ps ih =>
    intro i url hi hpos
    have hblock : scan_events (p :: ps) dmin dmax
        = Event.request (search_url p) :: Event.sleep 3 5 ::
          Event.sleep dmin dmax :: scan_events ps dmin dmax := by
      simp [scan_events, crawl_events]
    rw [hblock] at hi ⊢
    rcases i with _ | (_ | (_ | k))
    · omega
    · simp at hi
    · simp at hi
    · exact ⟨rfl, by omega⟩

/-- Each request of the trace is immediately followed by the
`sleep(uniform(3, 5))` of line 198. -/
theorem scan_events_sleep_follows (products : List Product) (dmin dmax : ℕ) :
    ∀ i url, (scan_events products dmin dmax)[i]? = some (Event.request url) →
      (scan_events products dmin dmax)[i+1]? = some (Event.sleep 3 5) := by
  induction products with
  | nil =>
    intro i url hi
    simp [scan_events] at hi
  | cons p ps ih =>
    intro i url hi
    have hblock : scan_events (p :: ps) dmin dmax
        = Event.request (search_url p) :: Event.sleep 3 5 ::
          Event.sleep dmin dmax :: scan_events ps dmin dmax := by
      simp [scan_events, crawl_events]
    rw [hblock] at hi ⊢
    rcases i with _ | (_ | (_ | k))
    · rfl
    · simp at hi
    · simp at hi
    · simp only [List.getElem?_cons_succ] at hi ⊢
      exact ih k url hi

/-- C9 amended: in the scan's timing trace every page request is
immediately followed by a `sleep(uniform(3, 5))`, and every request other
than the very first is preceded (earlier in the trace) by an in-window
delay; the first request of a scan is issued with no preceding delay. -/
theorem C9_delay_after_request :
    ∀ products dmin dmax i url,
      (scan_events products dmin dmax)[i]? = some (Event.request url) →
      (scan_events products dmin dmax)[i+1]? = some (Event.sleep 3 5) ∧
      (0 < i → ∃ j, j < i ∧
        (scan_events products dmin dmax)[j]? = some (Event.sleep 3 5)) := by
  intro products dmin dmax i url hi
  constructor
  · exact scan_events_sleep_follows products dmin dmax i url hi
  · intro hpos
    obtain ⟨h1, hlt⟩ := scan_events_request_pos products dmin dmax i url hi hpos
    exact ⟨1, hlt, h1⟩

/-- C9 witness: the second product's request in a concrete two-product
scan is followed by the 3-5 second sleep and preceded by an earlier one. -/
theorem C9_delay_after_request_witness :
    (scan_events [pX, p9999] 3 7)[3+1]? = some (Event.sleep 3 5) ∧
    (0 < 3 → ∃ j, j < 3 ∧ (scan_events [pX, p9999] 3 7)[j]? = some (Event.sleep 3 5)) :=
  C9_delay_after_request [pX, p9999] 3 7 3 (search_url p9999) (by decide)

